import Mathlib

/-!
Verification of the failure-tolerance and silence-modeling core of the
livekit-voice-agent repository.

The definitions below are a shallow embedding of the Python sources
`failure_tolerance.py`, `escalation.py` and `silence_modeling.py`:

* Machine floats are modelled as exact rationals (`Rat`).
* Wall-clock time (`time.time()`) is passed in explicitly as a `Rat`
  parameter wherever the source reads it.
* The random jitter factor of `RetryStrategy.calculate_delay` is passed
  in explicitly (the source draws it uniformly from [0.5, 1.5)).
* Python dictionaries keyed by service name are modelled as functions
  `String -> Option _` (or `String -> Nat` with default 0, matching
  `dict.get(key, 0)`), updated pointwise.
* The awaited operation of `FailureTolerantExecutor.execute` is modelled
  as a function from the invocation index to its outcome (a value, an
  `asyncio.TimeoutError`, or an exception carrying its message string);
  the fallback is a single outcome.  Sleeps performed between attempts
  are collected in a list so that "no delay" is provable.
-/

namespace VoiceAgent

/-- `ErrorCategory` from `failure_tolerance.py`. -/
inductive ErrorCategory
  | transient
  | permanent
  | rate_limit
  | timeout
  | network
  | authentication
  | quota_exceeded
  | service_unavailable
  | invalid_input
  deriving DecidableEq, Repr

/-- `EscalationLevel` from `failure_tolerance.py`. -/
inductive EscalationLevel
  | retry
  | retry_with_backoff
  | fallback_service
  | graceful_degradation
  | human_transfer
  | abort
  deriving DecidableEq, Repr

/-- `RetryConfig` from `failure_tolerance.py`, with its default field values. -/
structure RetryConfig where
  max_attempts : Nat := 3
  initial_delay : Rat := 1
  max_delay : Rat := 60
  exponential_base : Rat := 2
  jitter : Bool := true
  retryable_categories : List ErrorCategory :=
    [.transient, .network, .timeout, .rate_limit, .service_unavailable]
  deriving Repr

/-- `RetryStrategy.calculate_delay`.  The uniform random jitter factor
(drawn from [0.5, 1.5) by the source) is supplied explicitly. -/
def calculate_delay (cfg : RetryConfig) (attempt : Nat) (jitter_factor : Rat) : Rat :=
  if attempt = 0 then 0
  else
    let d := cfg.initial_delay * cfg.exponential_base ^ (attempt - 1)
    let d := min d cfg.max_delay
    if cfg.jitter then d * jitter_factor else d

/-- `RetryStrategy.should_retry`. -/
def should_retry (cfg : RetryConfig) (category : ErrorCategory) (attempt : Nat) : Bool :=
  if cfg.max_attempts ≤ attempt then false
  else decide (category ∈ cfg.retryable_categories)

/-- `pat` occurs as a contiguous sublist of the second argument
(Python's `pat in s` on strings). -/
def listContainsSub (pat : List Char) : List Char → Bool
  | [] => pat.isEmpty
  | c :: cs => pat.isPrefixOf (c :: cs) || listContainsSub pat cs

/-- Python's `pat in s` substring test. -/
def containsSub (s pat : String) : Bool := listContainsSub pat.toList s.toList

/-- `any(keyword in msg for keyword in kws)`. -/
def anyKeyword (msg : String) (kws : List String) : Bool :=
  kws.any (fun k => containsSub msg k)

/-- Python's `str.lower()`, character by character. -/
def lowerStr (s : String) : String := String.mk (s.toList.map Char.toLower)

/-- `ErrorClassifier.classify`.  The exception is represented by its message
string (the source only inspects `str(error).lower()`); the source's
sequential non-exclusive `if` blocks for the service-specific heuristics
are flattened into equivalent guarded branches. -/
def classify (errorMsgRaw : String) (service_nameRaw : String) : ErrorCategory :=
  let msg := lowerStr errorMsgRaw
  let svc := lowerStr service_nameRaw
  if anyKeyword msg ["connection", "network", "timeout", "unreachable", "dns"] then .network
  else if containsSub msg "timeout" || containsSub msg "timed out" then .timeout
  else if anyKeyword msg ["rate limit", "too many requests", "429", "quota"] then
    (if containsSub msg "quota" || containsSub msg "quota exceeded" then .quota_exceeded
     else .rate_limit)
  else if anyKeyword msg ["auth", "unauthorized", "401", "403", "invalid key", "api key"] then
    .authentication
  else if anyKeyword msg ["503", "service unavailable", "unavailable", "down", "maintenance"] then
    .service_unavailable
  else if anyKeyword msg ["invalid", "bad request", "400", "malformed", "validation"] then
    .invalid_input
  else if containsSub svc "openai" && containsSub msg "429" then .rate_limit
  else if containsSub svc "openai" && (containsSub msg "401" || containsSub msg "403") then
    .authentication
  else if containsSub svc "openai"
      && (containsSub msg "500" || containsSub msg "502" || containsSub msg "503") then
    .service_unavailable
  else if containsSub svc "deepgram" && containsSub msg "429" then .rate_limit
  else if containsSub svc "deepgram" && containsSub msg "401" then .authentication
  else if anyKeyword svc ["cartesia", "elevenlabs", "eleven"] && containsSub msg "429" then
    .rate_limit
  else if anyKeyword svc ["cartesia", "elevenlabs", "eleven"] && containsSub msg "401" then
    .authentication
  else .transient

/-- The `'state'` entry of a circuit-breaker dict (`'closed'`, `'half-open'`,
`'open'`). -/
inductive BreakerState
  | closed
  | half_open
  | open_
  deriving DecidableEq, Repr

/-- One circuit-breaker dict of `FailureTolerantExecutor.circuit_breakers`,
with the initial values used when a service is first registered. -/
structure Breaker where
  state : BreakerState := .closed
  success_count : Nat := 0
  failure_count : Nat := 0
  last_failure : Rat := 0
  deriving DecidableEq, Repr

/-- The `circuit_breakers` dict: service name to breaker, absent until first
registered. -/
def Breakers := String → Option Breaker

/-- Lookup with lazy default registration (the source inserts the fresh dict
before mutating it). -/
def getBreaker (cbs : Breakers) (s : String) : Breaker := (cbs s).getD {}

/-- Pointwise dict update. -/
def setBreaker (cbs : Breakers) (s : String) (b : Breaker) : Breakers :=
  fun s2 => if s2 = s then some b else cbs s2

/-- `FailureTolerantExecutor._is_circuit_open`.  Returns the boolean answer and
the possibly mutated registry (an open breaker past the 60-second cooldown is
switched to half-open in place). -/
def is_circuit_open (now : Rat) (cbs : Breakers) (s : String) : Bool × Breakers :=
  match cbs s with
  | none => (false, cbs)
  | some b =>
    if b.state = .open_ then
      if 60 < now - b.last_failure then
        (false, setBreaker cbs s { b with state := .half_open })
      else (true, cbs)
    else (false, cbs)

/-- `FailureTolerantExecutor._record_success`. -/
def record_success (cbs : Breakers) (s : String) : Breakers :=
  let b := getBreaker cbs s
  let b := { b with success_count := b.success_count + 1 }
  let b :=
    if b.state = .half_open then { b with state := .closed, failure_count := 0 } else b
  setBreaker cbs s b

/-- `FailureTolerantExecutor._record_failure`; `now` is the `time.time()` value
stored into `last_failure`. -/
def record_failure (now : Rat) (cbs : Breakers) (s : String) : Breakers :=
  let b := getBreaker cbs s
  let b := { b with failure_count := b.failure_count + 1, last_failure := now }
  let b := if 5 ≤ b.failure_count then { b with state := .open_ } else b
  setBreaker cbs s b

/-- An outcome recorded into a breaker: a failed or a successful operation. -/
inductive CBOp
  | fail
  | ok_
  deriving DecidableEq, Repr

/-- Fold a sequence of recorded outcomes into the breaker registry. -/
def runCB (now : Rat) (s : String) : Breakers → List CBOp → Breakers
  | cbs, [] => cbs
  | cbs, op :: rest =>
    match op with
    | .fail => runCB now s (record_failure now cbs s) rest
    | .ok_ => runCB now s (record_success cbs s) rest

/-- `ExecutionResult` from `failure_tolerance.py`; the error is carried as its
message string. -/
structure ExecutionResult (V : Type) where
  success : Bool
  value : Option V := none
  errorMsg : Option String := none
  category : Option ErrorCategory := none
  attempts : Nat := 0
  elapsed_time : Rat := 0
  escalated : Bool := false
  escalation_level : Option EscalationLevel := none
  deriving DecidableEq, Repr

/-- `FailureContext` from `failure_tolerance.py` (metadata omitted: the core
never reads it). -/
structure FailureContext where
  errorMsg : Option String
  category : Option ErrorCategory
  attempt_number : Nat
  total_attempts : Nat
  elapsed_time : Rat
  service_name : String
  operation_name : String

/-- Outcome of one awaited invocation of the operation: a value, an
`asyncio.TimeoutError`, or an exception with its message. -/
inductive AttemptOutcome (V : Type)
  | ok (v : V)
  | timeoutErr
  | exc (msg : String)

/-- The source's two `except` clauses: `asyncio.TimeoutError` is categorised
`TIMEOUT` directly, any other exception is classified. -/
def outcomeToExcept {V : Type} (s : String) :
    AttemptOutcome V → Except (String × ErrorCategory) V
  | .ok v => .ok v
  | .timeoutErr => .error ("timed out", .timeout)
  | .exc msg => .error (msg, classify msg s)

/-- Result of the attempt loop of `execute`: the successful value together with
the reported attempt count, or the last error; plus how many times the
operation was invoked and which positive delays were slept. -/
structure LoopRes (V : Type) where
  successVal : Option (V × Nat)
  lastErr : Option (String × ErrorCategory)
  opCalls : Nat
  sleeps : List Rat

/-- The `for attempt in range(max_attempts)` loop of
`FailureTolerantExecutor.execute`.  `remaining` counts the attempts left,
`attempt` is the current 0-based index, `last` threads `last_error`.
`jf attempt` is the jitter factor used for that attempt's backoff. -/
def runAttempts {V : Type} (cfg : RetryConfig) (s : String)
    (ops : Nat → AttemptOutcome V) (jf : Nat → Rat) :
    Nat → Nat → Option (String × ErrorCategory) → LoopRes V
  | 0, _, last => ⟨none, last, 0, []⟩
  | remaining + 1, attempt, last =>
    match outcomeToExcept s (ops attempt) with
    | .ok v => ⟨some (v, attempt + 1), last, 1, []⟩
    | .error le =>
      if should_retry cfg le.2 (attempt + 1) then
        let d := calculate_delay cfg (attempt + 1) (jf (attempt + 1))
        let r := runAttempts cfg s ops jf remaining (attempt + 1) (some le)
        ⟨r.successVal, r.lastErr, r.opCalls + 1, (if 0 < d then [d] else []) ++ r.sleeps⟩
      else ⟨none, some le, 1, []⟩

/-- The fixed escalation rule of `execute` used when no handler is supplied. -/
def defaultEscalation (cat : Option ErrorCategory) : EscalationLevel :=
  match cat with
  | some .authentication => .abort
  | some .invalid_input => .abort
  | some .quota_exceeded => .human_transfer
  | _ => .abort

/-- Everything observable about one call to `execute`: the returned result, the
breaker registry afterwards, how many times the operation and the fallback were
invoked, and the slept delays. -/
structure ExecOutcome (V : Type) where
  result : ExecutionResult V
  breakers : Breakers
  opCalls : Nat
  fbCalls : Nat
  sleeps : List Rat

/-- `FailureTolerantExecutor.execute`.  `now` is the wall-clock time at the
call (used by the breaker check and recorded as `last_failure`); `elapsed` is
the wall-clock duration reported in non-short-circuit results; `fallback` is
the outcome of the fallback operation if one is supplied. -/
def execute {V : Type} (cfg : RetryConfig) (now elapsed : Rat) (cbs : Breakers)
    (s op_name : String) (ops : Nat → AttemptOutcome V) (jf : Nat → Rat)
    (fallback : Option (Except String V))
    (handler : Option (FailureContext → EscalationLevel)) : ExecOutcome V :=
  let chk := is_circuit_open now cbs s
  if chk.1 then
    ⟨{ success := false, errorMsg := some ("Circuit breaker is open for " ++ s),
       category := some .service_unavailable, attempts := 0, elapsed_time := 0 },
     chk.2, 0, 0, []⟩
  else
    let r := runAttempts cfg s ops jf cfg.max_attempts 0 none
    match r.successVal with
    | some (v, att) =>
      ⟨{ success := true, value := some v, attempts := att, elapsed_time := elapsed },
       record_success chk.2 s, r.opCalls, 0, r.sleeps⟩
    | none =>
      let cbs2 := record_failure now chk.2 s
      let ctx : FailureContext :=
        { errorMsg := r.lastErr.map Prod.fst, category := r.lastErr.map Prod.snd,
          attempt_number := cfg.max_attempts, total_attempts := cfg.max_attempts,
          elapsed_time := elapsed, service_name := s, operation_name := op_name }
      match fallback with
      | some (.ok v) =>
        ⟨{ success := true, value := some v, attempts := cfg.max_attempts + 1,
           elapsed_time := elapsed, escalated := true,
           escalation_level := some .fallback_service }, cbs2, r.opCalls, 1, r.sleeps⟩
      | fb =>
        let lvl :=
          match handler with
          | some h => h ctx
          | none => defaultEscalation (r.lastErr.map Prod.snd)
        ⟨{ success := false, errorMsg := r.lastErr.map Prod.fst,
           category := r.lastErr.map Prod.snd, attempts := cfg.max_attempts,
           elapsed_time := elapsed, escalated := true, escalation_level := some lvl },
         cbs2, r.opCalls, (if fb.isSome then 1 else 0), r.sleeps⟩

/-- `DegradationMode` from `escalation.py`. -/
inductive DegradationMode
  | full_functionality
  | reduced_stt
  | reduced_tts
  | reduced_llm
  | text_only
  | minimal
  deriving DecidableEq, Repr

/-- `EscalationPolicy` from `escalation.py`, with its default field values
(including the default degradation sequence set in `__post_init__`). -/
structure EscalationPolicy where
  max_retries_before_escalation : Nat := 3
  enable_graceful_degradation : Bool := true
  enable_human_transfer : Bool := true
  human_transfer_threshold : Nat := 5
  degradation_sequence : List DegradationMode :=
    [.full_functionality, .reduced_tts, .reduced_llm, .reduced_stt, .text_only, .minimal]
  deriving Repr

/-- The mutable state of an `EscalationManager` (the session collaborator is
only used for user-facing notifications and is not modelled). -/
structure EscalationManager where
  policy : EscalationPolicy := {}
  current_mode : DegradationMode := .full_functionality
  failure_count : Nat := 0
  service_failures : String → Nat := fun _ => 0

/-- The list of critical services hard-coded in
`EscalationManager.should_escalate_to_human`. -/
def critical_services : List String := ["openai_llm", "deepgram_stt"]

/-- `EscalationManager.should_escalate_to_human`. -/
def EscalationManager.should_escalate_to_human (m : EscalationManager) : Bool :=
  if m.policy.enable_human_transfer = false then false
  else if m.policy.human_transfer_threshold ≤ m.failure_count then true
  else critical_services.any (fun s => decide (3 ≤ m.service_failures s))

/-- `EscalationManager._determine_degradation_mode` (note the source checks
`failure_count >= 4` before `failure_count >= 6`). -/
def EscalationManager.determine_degradation_mode (m : EscalationManager) : DegradationMode :=
  let stt_failures := m.service_failures "deepgram_stt"
  let tts_failures := m.service_failures "elevenlabs_tts" + m.service_failures "cartesia_tts"
  let llm_failures := m.service_failures "openai_llm"
  if 2 ≤ llm_failures then .reduced_llm
  else if 2 ≤ tts_failures then .reduced_tts
  else if 2 ≤ stt_failures then .reduced_stt
  else if 4 ≤ m.failure_count then .text_only
  else if 6 ≤ m.failure_count then .minimal
  else m.current_mode

/-- `EscalationManager.record_failure` (the `_transition_to_mode` notification
is a session side effect; the mode assignment is modelled). -/
def EscalationManager.record_failure (m : EscalationManager) (service : String) :
    EscalationManager × EscalationLevel :=
  let m1 : EscalationManager :=
    { m with
      failure_count := m.failure_count + 1,
      service_failures := fun s =>
        if s = service then m.service_failures s + 1 else m.service_failures s }
  if m1.should_escalate_to_human then (m1, .human_transfer)
  else if m1.policy.enable_graceful_degradation then
    let new_mode := m1.determine_degradation_mode
    if new_mode ≠ m1.current_mode then
      ({ m1 with current_mode := new_mode }, .graceful_degradation)
    else (m1, .retry_with_backoff)
  else (m1, .retry_with_backoff)

/-- Fold a sequence of `record_failure` calls (one failing service per call). -/
def runEM (m : EscalationManager) : List String → EscalationManager
  | [] => m
  | s :: rest => runEM (m.record_failure s).1 rest

/-- Position of a mode in the default degradation ladder
(`EscalationPolicy.degradation_sequence`). -/
def ladderIndex (mo : DegradationMode) : Nat :=
  (({} : EscalationPolicy).degradation_sequence).indexOf mo

/-- `backchannel_frequency` values of `CulturalTimingRules`. -/
inductive BackchannelFrequency
  | low
  | medium
  | high
  deriving DecidableEq, Repr

/-- The `silence_classification_thresholds` dict; its field defaults are the
`dict.get` fallbacks used in `SilenceStateMachine.update`. -/
structure SilenceThresholds where
  normal_pause : Rat := 0.3
  thinking : Rat := 1.0
  end_of_speech : Rat := 2.0
  disengagement : Rat := 5.0
  deriving DecidableEq, Repr

/-- `CulturalTimingRules` from `silence_modeling.py`. -/
structure CulturalTimingRules where
  language : String
  min_response_delay : Rat
  max_response_delay : Rat
  long_silence_threshold : Rat
  backchannel_frequency : BackchannelFrequency
  backchannel_interval : Rat
  allow_overlap : Bool
  min_interruption_duration : Rat
  silence_classification_thresholds : SilenceThresholds
  tts_speed : Rat := 1
  tts_volume : Rat := 1
  tts_emotion : String := "neutral"
  deriving DecidableEq, Repr

/-- `CulturalTimingRules.english`. -/
def CulturalTimingRules.english : CulturalTimingRules :=
  { language := "en-US"
    min_response_delay := 0.05
    max_response_delay := 0.15
    long_silence_threshold := 1.0
    backchannel_frequency := .low
    backchannel_interval := 3.0
    allow_overlap := true
    min_interruption_duration := 0.3
    silence_classification_thresholds :=
      { normal_pause := 0.2, thinking := 0.5, end_of_speech := 1.0, disengagement := 3.0 }
    tts_speed := 1.0
    tts_volume := 1.0
    tts_emotion := "excited" }

/-- `CulturalTimingRules.japanese`. -/
def CulturalTimingRules.japanese : CulturalTimingRules :=
  { language := "ja-JP"
    min_response_delay := 0.2
    max_response_delay := 0.5
    long_silence_threshold := 2.0
    backchannel_frequency := .high
    backchannel_interval := 2.0
    allow_overlap := false
    min_interruption_duration := 0.8
    silence_classification_thresholds :=
      { normal_pause := 0.3, thinking := 1.0, end_of_speech := 2.0, disengagement := 5.0 }
    tts_speed := 1.0
    tts_volume := 1.0
    tts_emotion := "calm" }

/-- The state strings of `SilenceStateMachine` (`"none"` is `noneYet`). -/
inductive SilenceState
  | noneYet
  | speaking
  | normal_pause
  | thinking
  | end_of_speech
  | disengagement
  deriving DecidableEq, Repr

/-- The silence-classification branch of `SilenceStateMachine.update`, as a
function of the already computed `silence_duration`.  Returns
`(state, should_respond, should_backchannel)`. -/
def classify_silence (rules : CulturalTimingRules) (d : Rat) :
    SilenceState × Bool × Bool :=
  let th := rules.silence_classification_thresholds
  if d < th.normal_pause then (.normal_pause, false, false)
  else if d < th.thinking then
    (.thinking, false,
      (decide (rules.backchannel_frequency = .high)
          || decide (rules.backchannel_frequency = .medium))
        && decide ((1 : Rat) / 2 < d))
  else if d < th.end_of_speech then
    (.end_of_speech,
      decide (rules.min_response_delay ≤ d) && decide (d ≤ rules.max_response_delay),
      false)
  else (.disengagement, false, false)

/-- The mutable state of a `SilenceStateMachine` (the rolling `asr_segments`
transcript window is not read by `update` and is omitted). -/
structure SilenceMachine where
  rules : CulturalTimingRules
  state : SilenceState := .noneYet
  silence_duration : Rat := 0
  last_speech_time : Option Rat := none
  last_transcription_time : Option Rat := none

/-- Python truthiness of an optional float (`if self.last_speech_time:`):
`None` and `0.0` are falsy. -/
def truthyTime : Option Rat → Bool
  | none => false
  | some t => decide (t ≠ 0)

/-- `SilenceStateMachine.update`; `now` is `time.time()`.  Returns the updated
machine and the `(state, should_respond, should_backchannel)` triple. -/
def SilenceMachine.update (sm : SilenceMachine) (now : Rat) (has_speech : Bool)
    (transcription_time : Option Rat) : SilenceMachine × SilenceState × Bool × Bool :=
  if has_speech then
    let ltt :=
      if truthyTime transcription_time then transcription_time
      else sm.last_transcription_time
    ({ sm with state := .speaking, silence_duration := 0, last_speech_time := some now,
               last_transcription_time := ltt },
     .speaking, false, false)
  else
    let d :=
      if truthyTime sm.last_speech_time then now - (sm.last_speech_time.getD 0)
      else if truthyTime sm.last_transcription_time then
        now - (sm.last_transcription_time.getD 0)
      else 0
    let c := classify_silence sm.rules d
    ({ sm with state := c.1, silence_duration := d }, c)

/-- An entry of `SilenceModelingEngine.stats["interruptions"]`. -/
structure InterruptionEvent where
  timestamp : Rat
  isReal : Bool
  duration : Rat
  deriving DecidableEq, Repr

/-- The append performed by `SilenceModelingEngine._handle_false_interruption`
(no trimming in the source). -/
def handle_false_interruption (l : List InterruptionEvent) (e : InterruptionEvent) :
    List InterruptionEvent := l ++ [e]

/-- The append performed by `SilenceModelingEngine._handle_real_interruption`,
which keeps only the last 50 entries when the list exceeds 50. -/
def handle_real_interruption (l : List InterruptionEvent) (e : InterruptionEvent) :
    List InterruptionEvent :=
  let l2 := l ++ [e]
  if 50 < l2.length then l2.drop (l2.length - 50) else l2

/-- `n` consecutive false-interruption events recorded into the stats list. -/
def repeatFalse (e : InterruptionEvent) : Nat → List InterruptionEvent → List InterruptionEvent
  | 0, l => l
  | n + 1, l => repeatFalse e n (handle_false_interruption l e)

/-- A registry holding one breaker for service `"svc"` that opened at time 0
after its 5th recorded failure. -/
def cbsOpen5 : Breakers :=
  fun s =>
    if s = "svc" then
      some { state := .open_, success_count := 0, failure_count := 5, last_failure := 0 }
    else none

/-- The breaker stored in `cbsOpen5`. -/
def bOpen5 : Breaker :=
  { state := .open_, success_count := 0, failure_count := 5, last_failure := 0 }

/-- A default-policy manager with 4 prior failures, 2 of them on the critical
`openai_llm` service. -/
def mW : EscalationManager :=
  { policy := {}, current_mode := .full_functionality, failure_count := 4,
    service_failures := fun s => if s = "openai_llm" then 2 else 0 }

/-- A manager currently in a degraded (non-full) mode. -/
def mC5 : EscalationManager := { current_mode := .reduced_llm }

/-- The default retry configuration with jitter turned off. -/
def cfgNoJitter : RetryConfig := { jitter := false }

/-- A false-interruption stats entry. -/
def evFalse : InterruptionEvent := { timestamp := 0, isReal := false, duration := 0 }

/-- An English-rules silence machine whose user last spoke at time 10. -/
def smEnglishAt10 : SilenceMachine :=
  { rules := .english, state := .speaking, silence_duration := 0,
    last_speech_time := some 10, last_transcription_time := none }

/-- If the current mode is not `full_functionality`, neither is the mode
computed by `_determine_degradation_mode`: every branch yields a degraded
constructor except the default branch, which keeps the current mode. -/
theorem determine_mode_ne_full (m : EscalationManager)
    (h : m.current_mode ≠ .full_functionality) :
    m.determine_degradation_mode ≠ .full_functionality := by
  unfold EscalationManager.determine_degradation_mode
  by_cases h1 : 2 ≤ m.service_failures "openai_llm" <;>
    by_cases h2 : 2 ≤ m.service_failures "elevenlabs_tts" + m.service_failures "cartesia_tts" <;>
    by_cases h3 : 2 ≤ m.service_failures "deepgram_stt" <;>
    by_cases h4 : 4 ≤ m.failure_count <;>
    by_cases h5 : 6 ≤ m.failure_count <;>
    simp [h, h1, h2, h3, h4, h5]

/-- Claim C1, counterexample: with the default policy, six `record_failure`
calls on six distinct non-critical services bring `failure_count` to 6 with
every critical service at 0; the sixth call returns `human_transfer` (the
default `human_transfer_threshold` of 5 is already met), not
`graceful_degradation`, and `current_mode` is `text_only` (set by the fourth
call through the `failure_count >= 4` branch, which shadows the
`failure_count >= 6` branch), not `minimal`. -/
theorem C1_six_failures_return_human_transfer :
    ((runEM {} ["svc_a", "svc_b", "svc_c", "svc_d", "svc_e"]).record_failure "svc_f").1.failure_count
      = 6
    ∧ ((runEM {} ["svc_a", "svc_b", "svc_c", "svc_d", "svc_e"]).record_failure
        "svc_f").1.service_failures "openai_llm" = 0
    ∧ ((runEM {} ["svc_a", "svc_b", "svc_c", "svc_d", "svc_e"]).record_failure
        "svc_f").1.service_failures "deepgram_stt" = 0
    ∧ ((runEM {} ["svc_a", "svc_b", "svc_c", "svc_d", "svc_e"]).record_failure "svc_f").2
      = .human_transfer
    ∧ ((runEM {} ["svc_a", "svc_b", "svc_c", "svc_d", "svc_e"]).record_failure "svc_f").2
      ≠ .graceful_degradation
    ∧ ((runEM {} ["svc_a", "svc_b", "svc_c", "svc_d", "svc_e"]).record_failure
        "svc_f").1.current_mode = .text_only
    ∧ ((runEM {} ["svc_a", "svc_b", "svc_c", "svc_d", "svc_e"]).record_failure
        "svc_f").1.current_mode ≠ .minimal := by
  decide

/-- Claim C2: the code opens the breaker on the 5th cumulative recorded
failure even when a success is interposed while the breaker is closed —
after fail, fail, fail, fail, success, fail (never five consecutive failures)
the breaker is `open`, contradicting the source's own comment
"Open circuit breaker after 5 consecutive failures" (a success while closed
does not reset `failure_count`; only a success while half-open does).  With
failures only, the breaker is still closed after 4 and opens on the 5th. -/
theorem C2_cumulative_failures_open_breaker :
    ((runCB 0 "svc" (fun _ => none) [.fail, .fail, .fail, .fail]) "svc").map Breaker.state
      = some .closed
    ∧ ((runCB 0 "svc" (fun _ => none) [.fail, .fail, .fail, .fail, .fail]) "svc").map
        Breaker.state = some .open_
    ∧ ((runCB 0 "svc" (fun _ => none) [.fail, .fail, .fail, .fail, .ok_, .fail]) "svc").map
        Breaker.state = some .open_
    ∧ ((runCB 0 "svc" (fun _ => none) [.fail, .fail, .fail, .fail, .ok_, .fail]) "svc").map
        Breaker.failure_count = some 5 := by
  decide

/-- Claim C3, counterexample: a breaker that opened at time 0 is inspected at
time 60, i.e. exactly 60 seconds after `last_failure`; the source requires
strictly more than 60 seconds, so the inspection still reports open (returns
`true`) and the state stays `open`, contradicting the claim's "once at least
60 seconds have elapsed". -/
theorem C3_exactly_sixty_seconds_still_open :
    (is_circuit_open 60 cbsOpen5 "svc").1 = true
    ∧ ((is_circuit_open 60 cbsOpen5 "svc").2 "svc").map Breaker.state = some .open_ := by
  have hb : cbsOpen5 "svc" = some bOpen5 := by simp [cbsOpen5, bOpen5]
  have hco : is_circuit_open 60 cbsOpen5 "svc" = (true, cbsOpen5) := by
    unfold is_circuit_open
    rw [hb]
    norm_num [bOpen5]
  rw [hco]
  refine ⟨rfl, ?_⟩
  show (cbsOpen5 "svc").map Breaker.state = some .open_
  rw [hb]
  rfl

/-- Claim C4, counterexample: with the default configuration (jitter enabled)
and a jitter factor of 1.4 (inside the source's [0.5, 1.5) range), attempt 8
yields `min(1 * 2 ^ 7, 60) * 1.4 = 84`, which exceeds `max_delay = 60`; so the
unqualified "delay(a) <= max_delay" fails when jitter is enabled. -/
theorem C4_jitter_exceeds_max_delay :
    ({} : RetryConfig).jitter = true
    ∧ (1 : Rat) / 2 ≤ 7 / 5
    ∧ (7 : Rat) / 5 < 3 / 2
    ∧ calculate_delay {} 8 (7 / 5) = 84
    ∧ ({} : RetryConfig).max_delay < calculate_delay {} 8 (7 / 5) := by
  refine ⟨rfl, by norm_num, by norm_num, ?_, ?_⟩ <;>
    norm_num [calculate_delay, min_def]

/-- Claim C5, counterexample: from a fresh default manager, two failures of
`deepgram_stt` enter `reduced_stt` (position 3 of the default ladder), and two
further failures of `elevenlabs_tts` then transition to `reduced_tts`
(position 1) — a later ladder mode is left for an earlier one. -/
theorem C5_ladder_moves_backward :
    (runEM {} ["deepgram_stt", "deepgram_stt"]).current_mode = .reduced_stt
    ∧ (runEM {} ["deepgram_stt", "deepgram_stt", "elevenlabs_tts",
        "elevenlabs_tts"]).current_mode = .reduced_tts
    ∧ ladderIndex .reduced_tts < ladderIndex .reduced_stt := by
  decide

/-- Claim C9: `_handle_false_interruption` appends without trimming, so 51
consecutive false-interruption events leave 51 stored events, exceeding the
cap of 50 (only `_handle_real_interruption` trims to the last 50). -/
theorem C9_false_interruptions_exceed_cap :
    (repeatFalse evFalse 51 []).length = 51
    ∧ 50 < (repeatFalse evFalse 51 []).length
    ∧ (handle_real_interruption (repeatFalse evFalse 51 []) evFalse).length = 50 := by
  decide

/-- Claim C1, amended: with the default policy, any `record_failure` call made
when at least 4 failures are already recorded (so the call brings the total to
the default `human_transfer_threshold` of 5 or beyond — in particular to 6)
returns `human_transfer` and leaves `current_mode` unchanged; and a
`record_failure` call on a critical service that already has at least 2
recorded failures (so the call is its 3rd or later) returns `human_transfer`
regardless of the total count, again leaving `current_mode` unchanged. -/
theorem C1_default_policy_human_transfer (m : EscalationManager) (s c : String)
    (hpol : m.policy = {}) :
    (4 ≤ m.failure_count →
      (m.record_failure s).2 = .human_transfer
      ∧ (m.record_failure s).1.current_mode = m.current_mode)
    ∧ (c ∈ critical_services → 2 ≤ m.service_failures c →
      (m.record_failure c).2 = .human_transfer
      ∧ (m.record_failure c).1.current_mode = m.current_mode) := by
  constructor
  · intro h4
    have hesc : EscalationManager.should_escalate_to_human
        { m with
          failure_count := m.failure_count + 1,
          service_failures := fun t =>
            if t = s then m.service_failures t + 1 else m.service_failures t } = true := by
      unfold EscalationManager.should_escalate_to_human
      dsimp only
      rw [hpol]
      dsimp only
      rw [if_neg (by simp), if_pos (show (5 : Nat) ≤ m.failure_count + 1 by omega)]
    simp [EscalationManager.record_failure, hesc]
  · intro hmem h2
    have hesc : EscalationManager.should_escalate_to_human
        { m with
          failure_count := m.failure_count + 1,
          service_failures := fun t =>
            if t = c then m.service_failures t + 1 else m.service_failures t } = true := by
      unfold EscalationManager.should_escalate_to_human
      dsimp only
      rw [hpol]
      dsimp only
      rw [if_neg (by simp)]
      by_cases h5 : (5 : Nat) ≤ m.failure_count + 1
      · rw [if_pos h5]
      · rw [if_neg h5, List.any_eq_true]
        refine ⟨c, hmem, ?_⟩
        rw [decide_eq_true_eq, if_pos rfl]
        omega
    simp [EscalationManager.record_failure, hesc]

/-- Claim C3, amended: an `open` breaker reports half-open eligibility once
STRICTLY more than 60 seconds have elapsed since `last_failure` — the
inspection then returns `false` (permitting one trial execution) and rewrites
the stored state to half-open; a success recorded while half-open sets the
state to `closed` and `failure_count` to 0; a failure recorded while half-open
(whose count is at least 5, having opened the breaker; at least 4 suffices)
sets the state back to `open` immediately. -/
theorem C3_cooldown_half_open_cycle (cbs : Breakers) (s : String) (b : Breaker)
    (now now2 : Rat) (hb : cbs s = some b) (hst : b.state = .open_)
    (helap : 60 < now - b.last_failure) (hc : 4 ≤ b.failure_count) :
    (is_circuit_open now cbs s).1 = false
    ∧ ((is_circuit_open now cbs s).2 s) = some { b with state := .half_open }
    ∧ (record_success (is_circuit_open now cbs s).2 s) s
      = some { state := .closed, success_count := b.success_count + 1,
               failure_count := 0, last_failure := b.last_failure }
    ∧ (record_failure now2 (is_circuit_open now cbs s).2 s) s
      = some { state := .open_, success_count := b.success_count,
               failure_count := b.failure_count + 1, last_failure := now2 } := by
  have hco : is_circuit_open now cbs s
      = (false, setBreaker cbs s { b with state := .half_open }) := by
    unfold is_circuit_open
    rw [hb]
    simp [hst, helap]
  rw [hco]
  have h5 : 5 ≤ b.failure_count + 1 := by omega
  refine ⟨rfl, ?_, ?_, ?_⟩
  · show setBreaker cbs s { b with state := .half_open } s = _
    simp [setBreaker]
  · show record_success (setBreaker cbs s { b with state := .half_open }) s s = _
    unfold record_success getBreaker
    simp [setBreaker]
  · show record_failure now2 (setBreaker cbs s { b with state := .half_open }) s s = _
    unfold record_failure getBreaker
    simp [setBreaker, h5]

/-- Claim C4, amended: `calculate_delay` returns 0 for attempt 0; with jitter
DISABLED it equals `min(initial_delay * exponential_base ^ (attempt - 1),
max_delay)` for every attempt `a >= 1`, hence never exceeds `max_delay`, and
(for a base >= 1 and a nonnegative initial delay) it is non-decreasing in the
attempt number until it saturates at `max_delay`; with jitter enabled the
returned delay can exceed `max_delay` by up to the jitter factor 1.5
(see the counterexample). -/
theorem C4_delay_bounded_and_monotone (cfg : RetryConfig) (jf : Rat)
    (hjit : cfg.jitter = false) (hbase : 1 ≤ cfg.exponential_base)
    (hinit : 0 ≤ cfg.initial_delay) :
    calculate_delay cfg 0 jf = 0
    ∧ (∀ a : Nat, 1 ≤ a →
        calculate_delay cfg a jf
          = min (cfg.initial_delay * cfg.exponential_base ^ (a - 1)) cfg.max_delay
        ∧ calculate_delay cfg a jf ≤ cfg.max_delay)
    ∧ (∀ a b : Nat, 1 ≤ a → a ≤ b →
        calculate_delay cfg a jf ≤ calculate_delay cfg b jf) := by
  have hform : ∀ a : Nat, 1 ≤ a →
      calculate_delay cfg a jf
        = min (cfg.initial_delay * cfg.exponential_base ^ (a - 1)) cfg.max_delay := by
    intro a ha
    have hne : a ≠ 0 := by omega
    simp [calculate_delay, hne, hjit]
  refine ⟨by simp [calculate_delay], fun a ha => ⟨hform a ha, ?_⟩, fun a b ha hab => ?_⟩
  · rw [hform a ha]
    exact min_le_right _ _
  · rw [hform a ha, hform b (le_trans ha hab)]
    refine min_le_min ?_ le_rfl
    exact mul_le_mul_of_nonneg_left (pow_le_pow_right₀ hbase (by omega)) hinit

/-- Claim C5, amended: the current mode never returns to `full_functionality`
once it has left it (no branch of `_determine_degradation_mode` produces
`full_functionality`), but `record_failure` CAN move the mode to an earlier
non-full position of the ladder (see the counterexample, `reduced_stt` to
`reduced_tts`). -/
theorem C5_never_back_to_full (m : EscalationManager) (s : String)
    (h : m.current_mode ≠ .full_functionality) :
    (m.record_failure s).1.current_mode ≠ .full_functionality := by
  unfold EscalationManager.record_failure
  dsimp only
  split_ifs with h1 h2 h3
  · exact h
  · exact determine_mode_ne_full _ h
  · exact h
  · exact h

/-- Claim C6 (confirmed): `execute` called while the service's breaker is open
and the 60-second cooldown has not elapsed returns immediately an
`ExecutionResult` with `success = false`, `category = service_unavailable`,
`attempts = 0` and `elapsed_time = 0`; the operation is never invoked, no
fallback is invoked, nothing is slept, and the breaker registry is returned
unchanged. -/
theorem C6_open_breaker_short_circuits {V : Type} (cfg : RetryConfig)
    (now elapsed : Rat) (cbs : Breakers) (s opn : String)
    (ops : Nat → AttemptOutcome V) (jf : Nat → Rat)
    (fb : Option (Except String V)) (handler : Option (FailureContext → EscalationLevel))
    (b : Breaker) (hb : cbs s = some b) (hst : b.state = .open_)
    (hcool : ¬ 60 < now - b.last_failure) :
    execute cfg now elapsed cbs s opn ops jf fb handler
      = ⟨{ success := false, value := none,
           errorMsg := some ("Circuit breaker is open for " ++ s),
           category := some .service_unavailable, attempts := 0, elapsed_time := 0,
           escalated := false, escalation_level := none }, cbs, 0, 0, []⟩ := by
  have hco : is_circuit_open now cbs s = (true, cbs) := by
    unfold is_circuit_open
    rw [hb]
    simp [hst, hcool]
  unfold execute
  rw [hco]
  rfl

/-- Claim C7 (confirmed): whenever the attempt loop of `execute` ends without a
success (the primary attempts are exhausted) and the supplied fallback
operation succeeds with value `v`, the returned result has `success = true`,
`value = some v`, `escalated = true` and
`escalation_level = fallback_service` (it also reports
`attempts = max_attempts + 1`, and the fallback was invoked exactly once). -/
theorem C7_fallback_success_escalated {V : Type} (cfg : RetryConfig)
    (now elapsed : Rat) (cbs : Breakers) (s opn : String)
    (ops : Nat → AttemptOutcome V) (jf : Nat → Rat)
    (handler : Option (FailureContext → EscalationLevel)) (v : V)
    (hopen : (is_circuit_open now cbs s).1 = false)
    (hex : (runAttempts cfg s ops jf cfg.max_attempts 0 none).successVal = none) :
    (execute cfg now elapsed cbs s opn ops jf (some (Except.ok v)) handler).result.success
      = true
    ∧ (execute cfg now elapsed cbs s opn ops jf (some (Except.ok v)) handler).result.value
      = some v
    ∧ (execute cfg now elapsed cbs s opn ops jf (some (Except.ok v)) handler).result.escalated
      = true
    ∧ (execute cfg now elapsed cbs s opn ops jf
        (some (Except.ok v)) handler).result.escalation_level = some .fallback_service
    ∧ (execute cfg now elapsed cbs s opn ops jf (some (Except.ok v)) handler).result.attempts
      = cfg.max_attempts + 1
    ∧ (execute cfg now elapsed cbs s opn ops jf (some (Except.ok v)) handler).fbCalls = 1 := by
  unfold execute
  dsimp only
  rw [hopen, if_neg (show ¬ (false = true) by simp), hex]
  exact ⟨rfl, rfl, rfl, rfl, rfl, rfl⟩

/-- Claim C10 (confirmed): every call to `execute` that passes the breaker
check, whose attempt loop ends without success, and whose fallback (if any)
does not succeed, returns a failed result whose `attempts` field equals the
configured `max_attempts` — regardless of how many times the operation was
actually invoked (a non-retryable category stops the loop early, but line
`attempts=self.retry_config.max_attempts` reports the full count). -/
theorem C10_failed_result_reports_max_attempts {V : Type} (cfg : RetryConfig)
    (now elapsed : Rat) (cbs : Breakers) (s opn : String)
    (ops : Nat → AttemptOutcome V) (jf : Nat → Rat)
    (fb : Option (Except String V)) (handler : Option (FailureContext → EscalationLevel))
    (hopen : (is_circuit_open now cbs s).1 = false)
    (hex : (runAttempts cfg s ops jf cfg.max_attempts 0 none).successVal = none)
    (hfb : ∀ v : V, fb ≠ some (Except.ok v)) :
    (execute cfg now elapsed cbs s opn ops jf fb handler).result.success = false
    ∧ (execute cfg now elapsed cbs s opn ops jf fb handler).result.attempts
      = cfg.max_attempts := by
  unfold execute
  dsimp only
  rw [hopen, if_neg (show ¬ (false = true) by simp), hex]
  cases fb with
  | none => exact ⟨rfl, rfl⟩
  | some x =>
    cases x with
    | error e => exact ⟨rfl, rfl⟩
    | ok v => exact absurd rfl (hfb v)

/-- Claim C8 (confirmed): in `SilenceStateMachine.update` with no speech, the
computed silence duration is bucketed by strict less-than against the
thresholds `normal_pause`, `thinking`, `end_of_speech` in that order (first
match wins, otherwise `disengagement`); `should_backchannel` is true exactly
in the thinking bucket when the frequency is high or medium and the duration
exceeds 0.5; `should_respond` is true exactly in the end-of-speech bucket when
`min_response_delay <= duration <= max_response_delay`; and with the English
thresholds, a machine whose user last spoke 0.25 seconds ago classifies the
silence as `thinking`. -/
theorem C8_silence_bucketing :
    (∀ (rules : CulturalTimingRules) (d : Rat),
      ((classify_silence rules d).1 = .normal_pause
        ↔ d < rules.silence_classification_thresholds.normal_pause)
      ∧ ((classify_silence rules d).1 = .thinking
        ↔ (¬ d < rules.silence_classification_thresholds.normal_pause
           ∧ d < rules.silence_classification_thresholds.thinking))
      ∧ ((classify_silence rules d).1 = .end_of_speech
        ↔ (¬ d < rules.silence_classification_thresholds.normal_pause
           ∧ ¬ d < rules.silence_classification_thresholds.thinking
           ∧ d < rules.silence_classification_thresholds.end_of_speech))
      ∧ ((classify_silence rules d).1 = .disengagement
        ↔ (¬ d < rules.silence_classification_thresholds.normal_pause
           ∧ ¬ d < rules.silence_classification_thresholds.thinking
           ∧ ¬ d < rules.silence_classification_thresholds.end_of_speech))
      ∧ ((classify_silence rules d).2.2 = true
        ↔ ((classify_silence rules d).1 = .thinking
           ∧ (rules.backchannel_frequency = .high ∨ rules.backchannel_frequency = .medium)
           ∧ (1 : Rat) / 2 < d))
      ∧ ((classify_silence rules d).2.1 = true
        ↔ ((classify_silence rules d).1 = .end_of_speech
           ∧ rules.min_response_delay ≤ d ∧ d ≤ rules.max_response_delay)))
    ∧ (smEnglishAt10.update (41 / 4) false none).2.1 = .thinking
    ∧ (smEnglishAt10.update (41 / 4) false none).1.silence_duration = 1 / 4 := by
  constructor
  · intro rules d
    unfold classify_silence
    dsimp only
    split_ifs with h1 h2 h3 <;>
      simp [*, Bool.and_eq_true, Bool.or_eq_true, decide_eq_true_eq]
  · have hd : (41 : Rat) / 4 - 10 = 1 / 4 := by norm_num
    have ht : truthyTime smEnglishAt10.last_speech_time = true := by
      norm_num [smEnglishAt10, truthyTime]
    constructor
    · unfold SilenceMachine.update
      rw [if_neg (by simp)]
      dsimp only
      rw [if_pos ht]
      show (classify_silence smEnglishAt10.rules ((41 : Rat) / 4 - 10)).1 = _
      rw [hd]
      norm_num [classify_silence, smEnglishAt10, CulturalTimingRules.english]
    · unfold SilenceMachine.update
      rw [if_neg (by simp)]
      dsimp only
      rw [if_pos ht]
      show ((41 : Rat) / 4 - (10 : Rat)) = 1 / 4
      exact hd

/-- Witness for C1: on a default-policy manager with 4 prior failures, 2 of
them on `openai_llm`, a fifth failure on any service returns `human_transfer`,
and a third `openai_llm` failure returns `human_transfer`. -/
theorem C1_witness :
    4 ≤ mW.failure_count
    ∧ (mW.record_failure "svc_x").2 = .human_transfer
    ∧ ("openai_llm" ∈ critical_services ∧ 2 ≤ mW.service_failures "openai_llm")
    ∧ (mW.record_failure "openai_llm").2 = .human_transfer :=
  ⟨by decide,
   ((C1_default_policy_human_transfer mW "svc_x" "openai_llm" rfl).1 (by decide)).1,
   ⟨by decide, by decide⟩,
   ((C1_default_policy_human_transfer mW "svc_x" "openai_llm" rfl).2 (by decide)
      (by decide)).1⟩

/-- Witness for C3: the open breaker of `cbsOpen5` inspected at time 61
(61 seconds after its last failure) reports closed-for-trial, and a success
recorded in the resulting half-open state yields a closed breaker with zero
failure count. -/
theorem C3_witness :
    (is_circuit_open 61 cbsOpen5 "svc").1 = false
    ∧ (record_success (is_circuit_open 61 cbsOpen5 "svc").2 "svc") "svc"
      = some { state := .closed, success_count := 1, failure_count := 0, last_failure := 0 } :=
  ⟨(C3_cooldown_half_open_cycle cbsOpen5 "svc" bOpen5 61 61 rfl rfl
      (by norm_num [bOpen5]) (by norm_num [bOpen5])).1,
   (C3_cooldown_half_open_cycle cbsOpen5 "svc" bOpen5 61 61 rfl rfl
      (by norm_num [bOpen5]) (by norm_num [bOpen5])).2.2.1⟩

/-- Witness for C4: the jitter-free default configuration at concrete
attempts 0, 2 and 3. -/
theorem C4_witness :
    cfgNoJitter.jitter = false
    ∧ 1 ≤ cfgNoJitter.exponential_base
    ∧ 0 ≤ cfgNoJitter.initial_delay
    ∧ calculate_delay cfgNoJitter 0 1 = 0
    ∧ calculate_delay cfgNoJitter 2 1 ≤ cfgNoJitter.max_delay
    ∧ calculate_delay cfgNoJitter 2 1 ≤ calculate_delay cfgNoJitter 3 1 :=
  ⟨rfl, by norm_num [cfgNoJitter], by norm_num [cfgNoJitter],
   (C4_delay_bounded_and_monotone cfgNoJitter 1 rfl (by norm_num [cfgNoJitter])
      (by norm_num [cfgNoJitter])).1,
   ((C4_delay_bounded_and_monotone cfgNoJitter 1 rfl (by norm_num [cfgNoJitter])
      (by norm_num [cfgNoJitter])).2.1 2 (by norm_num)).2,
   (C4_delay_bounded_and_monotone cfgNoJitter 1 rfl (by norm_num [cfgNoJitter])
      (by norm_num [cfgNoJitter])).2.2 2 3 (by norm_num) (by norm_num)⟩

/-- Witness for C5: a manager in `reduced_llm` mode stays away from
`full_functionality` after another recorded failure. -/
theorem C5_witness :
    mC5.current_mode ≠ .full_functionality
    ∧ (mC5.record_failure "svc_x").1.current_mode ≠ .full_functionality :=
  ⟨by decide, C5_never_back_to_full mC5 "svc_x" (by decide)⟩

/-- Witness for C6: calling `execute` at time 30 on the breaker of `cbsOpen5`
(opened at time 0) short-circuits with the zero-cost service-unavailable
result. -/
theorem C6_witness :
    execute (V := Nat) {} 30 0 cbsOpen5 "svc" "op" (fun _ => AttemptOutcome.exc "boom")
        (fun _ => 1) none none
      = ⟨{ success := false, value := none,
           errorMsg := some ("Circuit breaker is open for " ++ "svc"),
           category := some .service_unavailable, attempts := 0, elapsed_time := 0,
           escalated := false, escalation_level := none }, cbsOpen5, 0, 0, []⟩ :=
  C6_open_breaker_short_circuits {} 30 0 cbsOpen5 "svc" "op"
    (fun _ => AttemptOutcome.exc "boom") (fun _ => 1) none none bOpen5 rfl rfl
    (by norm_num [bOpen5])

/-- Witness for C7: three failing attempts of a transient error exhaust the
default config, and a fallback succeeding with 42 yields an escalated
successful result at level `fallback_service`. -/
theorem C7_witness :
    (is_circuit_open 0 (fun _ => none) "svc").1 = false
    ∧ (runAttempts (V := Nat) {} "svc" (fun _ => AttemptOutcome.exc "boom") (fun _ => 1)
        ({} : RetryConfig).max_attempts 0 none).successVal = none
    ∧ (execute (V := Nat) {} 0 0 (fun _ => none) "svc" "op"
        (fun _ => AttemptOutcome.exc "boom") (fun _ => 1) (some (Except.ok 42))
        none).result.success = true
    ∧ (execute (V := Nat) {} 0 0 (fun _ => none) "svc" "op"
        (fun _ => AttemptOutcome.exc "boom") (fun _ => 1) (some (Except.ok 42))
        none).result.value = some 42
    ∧ (execute (V := Nat) {} 0 0 (fun _ => none) "svc" "op"
        (fun _ => AttemptOutcome.exc "boom") (fun _ => 1) (some (Except.ok 42))
        none).result.escalation_level = some .fallback_service :=
  ⟨rfl, by decide,
   (C7_fallback_success_escalated {} 0 0 (fun _ => none) "svc" "op"
      (fun _ => AttemptOutcome.exc "boom") (fun _ => 1) none 42 rfl (by decide)).1,
   (C7_fallback_success_escalated {} 0 0 (fun _ => none) "svc" "op"
      (fun _ => AttemptOutcome.exc "boom") (fun _ => 1) none 42 rfl (by decide)).2.1,
   (C7_fallback_success_escalated {} 0 0 (fun _ => none) "svc" "op"
      (fun _ => AttemptOutcome.exc "boom") (fun _ => 1) none 42 rfl (by decide)).2.2.2.1⟩

/-- Witness for C10: a single authentication failure (non-retryable) under the
default config invokes the operation once, yet the failed result reports
`attempts = 3 = max_attempts`. -/
theorem C10_witness :
    (execute (V := Nat) {} 0 0 (fun _ => none) "svc" "op"
        (fun _ => AttemptOutcome.exc "401 unauthorized") (fun _ => 1) none
        none).result.success = false
    ∧ (execute (V := Nat) {} 0 0 (fun _ => none) "svc" "op"
        (fun _ => AttemptOutcome.exc "401 unauthorized") (fun _ => 1) none
        none).result.attempts = 3
    ∧ (execute (V := Nat) {} 0 0 (fun _ => none) "svc" "op"
        (fun _ => AttemptOutcome.exc "401 unauthorized") (fun _ => 1) none
        none).opCalls = 1
    ∧ (execute (V := Nat) {} 0 0 (fun _ => none) "svc" "op"
        (fun _ => AttemptOutcome.exc "401 unauthorized") (fun _ => 1) none
        none).result.category = some .authentication :=
  ⟨(C10_failed_result_reports_max_attempts {} 0 0 (fun _ => none) "svc" "op"
      (fun _ => AttemptOutcome.exc "401 unauthorized") (fun _ => 1) none none rfl
      (by decide) (fun v h => Option.noConfusion h)).1,
   (C10_failed_result_reports_max_attempts {} 0 0 (fun _ => none) "svc" "op"
      (fun _ => AttemptOutcome.exc "401 unauthorized") (fun _ => 1) none none rfl
      (by decide) (fun v h => Option.noConfusion h)).2,
   by decide, by decide⟩

end VoiceAgent
